import Mathlib

/-!
Verification of the GEO Optimizer core (geo-optimizer-skill).

This file gives a shallow embedding of the audit core of the repository:
the robots.txt directive parser and bot classifier
(`src/geo_optimizer/utils/robots_parser.py`), the per-check extractors and
the score aggregator (`src/geo_optimizer/core/audit.py`), the JSON
formatter's per-check score breakdown
(`src/geo_optimizer/cli/formatters.py`), and the sitemap fetcher of
`src/geo_optimizer/core/llms_generator.py`, together with the scoring
constants of `src/geo_optimizer/models/config.py`.

Python strings are modelled as Lean `String` values; the Python string
primitives used by the source (strip, lower, startswith, split, substring
membership, splitlines) are re-implemented below over `String.data`
(`List Char`) so that every definition is executable by kernel reduction.
The re-implementations cover the ASCII behaviour exercised by the source;
Python additionally strips some rarer Unicode whitespace, which no input in
this development uses.
-/

namespace Geo

/-- Whitespace recognised by Python `str.strip()` (ASCII subset). -/
def isPySpace (c : Char) : Bool :=
  c == ' ' || c == '\t' || c == '\n' || c == '\r' || c == '\x0b' || c == '\x0c'

/-- Python `s.strip()`: drop leading and trailing whitespace. -/
def pyStrip (s : String) : String :=
  ⟨((s.data.dropWhile isPySpace).reverse.dropWhile isPySpace).reverse⟩

/-- Python `s.lower()` (ASCII case folding, as used on robots.txt lines). -/
def pyLower (s : String) : String :=
  ⟨s.data.map Char.toLower⟩

/-- Python `s.startswith(p)`. -/
def pyStartsWith (s p : String) : Bool :=
  p.data.isPrefixOf s.data

/-- Python `s.isEmpty` test (`not s` on a string). -/
def pyIsEmpty (s : String) : Bool :=
  s.data.isEmpty

/-- Helper for `pySplitOnce`: scan for the first occurrence of `sep`,
returning the (reversed-accumulator) prefix and the remainder. -/
def splitOnceGo (sep : List Char) : List Char → List Char → Option (List Char × List Char)
  | [], _ => none
  | c :: cs, acc =>
    if sep.isPrefixOf (c :: cs) then some (acc.reverse, (c :: cs).drop sep.length)
    else splitOnceGo sep cs (c :: acc)

/-- Python `s.split(sep, 1)`: `none` when `sep` does not occur, otherwise
the parts before and after the first occurrence. `s.split(sep, 1)[1]` is
the second component; `s.split(sep)[0]` is the first component (taking `s`
itself when the separator is absent). -/
def pySplitOnce (s sep : String) : Option (String × String) :=
  (splitOnceGo sep.data s.data []).map (fun p => (⟨p.1⟩, ⟨p.2⟩))

/-- Python `s.split(sep, 1)[1]`, for call sites where the separator is
known to occur; empty string otherwise (never reached in the source). -/
def pySplitOnceTail (s sep : String) : String :=
  match pySplitOnce s sep with
  | some p => p.2
  | none => ""

/-- Python `s.split(sep)[0]`: the prefix before the first occurrence of
`sep`, or all of `s` when `sep` is absent. -/
def pySplitHead (s sep : String) : String :=
  match pySplitOnce s sep with
  | some p => p.1
  | none => s

/-- Python `needle in hay` on lists of characters. -/
def substrGo : List Char → List Char → Bool
  | needle, [] => needle.isEmpty
  | needle, c :: t => needle.isPrefixOf (c :: t) || substrGo needle t

/-- Python `needle in hay` (substring membership). -/
def pyIn (needle hay : String) : Bool :=
  substrGo needle.data hay.data

/-- Helper for `splitlines`: split characters at `\n`, `\r\n` or `\r`,
with the current line accumulated in reverse. Mirrors Python
`str.splitlines()` on the line terminators that occur in this code base. -/
def splitlinesGo : List Char → List Char → List (List Char)
  | [], acc => if acc.isEmpty then [] else [acc.reverse]
  | '\n' :: cs, acc => acc.reverse :: splitlinesGo cs []
  | '\r' :: '\n' :: cs, acc => acc.reverse :: splitlinesGo cs []
  | '\r' :: cs, acc => acc.reverse :: splitlinesGo cs []
  | c :: cs, acc => splitlinesGo cs (c :: acc)

/-- Python `content.splitlines()`. -/
def splitlines (s : String) : List String :=
  (splitlinesGo s.data []).map (fun l => ⟨l⟩)

/-!
Configuration constants from `src/geo_optimizer/models/config.py`.
-/

/-- Roster of AI bots checked in robots.txt (`AI_BOTS`, config.py 16-31):
name and human description, in declaration order. -/
def AI_BOTS : List (String × String) :=
  [("GPTBot", "OpenAI (ChatGPT training)"),
   ("OAI-SearchBot", "OpenAI (ChatGPT search citations)"),
   ("ChatGPT-User", "OpenAI (ChatGPT on-demand fetch)"),
   ("anthropic-ai", "Anthropic (Claude training)"),
   ("ClaudeBot", "Anthropic (Claude citations)"),
   ("claude-web", "Anthropic (Claude web crawl)"),
   ("PerplexityBot", "Perplexity AI (index builder)"),
   ("Perplexity-User", "Perplexity (citation fetch on-demand)"),
   ("Google-Extended", "Google (Gemini training)"),
   ("Applebot-Extended", "Apple (AI training)"),
   ("cohere-ai", "Cohere (language models)"),
   ("DuckAssistBot", "DuckDuckGo AI"),
   ("Bytespider", "ByteDance/TikTok AI"),
   ("meta-externalagent", "Meta AI (Facebook/Instagram AI)")]

/-- Citation-critical bots (`CITATION_BOTS`, config.py 34). The source
uses a set; only membership is ever queried, so a list is faithful. -/
def CITATION_BOTS : List String :=
  ["OAI-SearchBot", "ClaudeBot", "PerplexityBot"]

/-- Scoring weight table (`SCORING`, config.py 197-215). The source is a
dict; lookups only ever use the seventeen literal keys below, so the
catch-all arm is never reached. -/
def SCORING : String → Nat
  | "robots_found" => 5
  | "robots_citation_ok" => 15
  | "robots_some_allowed" => 8
  | "llms_found" => 10
  | "llms_h1" => 3
  | "llms_sections" => 4
  | "llms_links" => 3
  | "schema_website" => 10
  | "schema_faq" => 10
  | "schema_webapp" => 5
  | "meta_title" => 5
  | "meta_description" => 8
  | "meta_canonical" => 3
  | "meta_og" => 4
  | "content_h1" => 4
  | "content_numbers" => 6
  | "content_links" => 5
  | _ => 0

/-!
Result dataclasses from `src/geo_optimizer/models/results.py`.
-/

/-- JSON values, as produced by Python `json.loads` for JSON-LD blocks.
Numbers are modelled as integers; no claim depends on numeric payloads. -/
inductive JValue where
  | obj (fields : List (String × JValue))
  | arr (elems : List JValue)
  | str (s : String)
  | num (n : Int)
  | bool (b : Bool)
  | null

/-- `RobotsResult` (results.py 15-21). -/
structure RobotsResult where
  found : Bool := false
  bots_allowed : List String := []
  bots_missing : List String := []
  bots_blocked : List String := []
  citation_bots_ok : Bool := false

/-- `LlmsTxtResult` (results.py 27-34). -/
structure LlmsTxtResult where
  found : Bool := false
  has_h1 : Bool := false
  has_description : Bool := false
  has_sections : Bool := false
  has_links : Bool := false
  word_count : Nat := 0

/-- `SchemaResult` (results.py 40-46). `found_types` is a Python list fed
from JSON data, so its elements are JSON values (usually strings);
`raw_schemas` holds the parsed JSON objects. -/
structure SchemaResult where
  found_types : List JValue := []
  has_website : Bool := false
  has_webapp : Bool := false
  has_faq : Bool := false
  raw_schemas : List JValue := []

/-- `MetaResult` (results.py 52-64). -/
structure MetaResult where
  has_title : Bool := false
  has_description : Bool := false
  has_canonical : Bool := false
  has_og_title : Bool := false
  has_og_description : Bool := false
  has_og_image : Bool := false
  title_text : String := ""
  description_text : String := ""
  description_length : Nat := 0
  title_length : Nat := 0
  canonical_url : String := ""

/-- `ContentResult` (results.py 70-79). -/
structure ContentResult where
  has_h1 : Bool := false
  heading_count : Nat := 0
  has_numbers : Bool := false
  has_links : Bool := false
  word_count : Nat := 0
  h1_text : String := ""
  numbers_count : Nat := 0
  external_links_count : Nat := 0

/-- `AuditResult` (results.py 85-98). The timestamp default (wall clock)
is outside the embedding; formatters never read it for scoring. -/
structure AuditResult where
  url : String
  timestamp : String := ""
  score : Nat := 0
  band : String := "critical"
  robots : RobotsResult := {}
  llms : LlmsTxtResult := {}
  schema : SchemaResult := {}
  meta : MetaResult := {}
  content : ContentResult := {}
  recommendations : List String := []
  http_status : Nat := 0
  page_size : Nat := 0

/-!
Score aggregation (`compute_geo_score`, audit.py 235-283).
-/

/-- `compute_geo_score` (audit.py 235-283), translated step by step: each
`score += w` under a condition becomes a conditional rebinding, Python
list truthiness of `robots.bots_allowed` becomes a non-emptiness test,
and the final clamp is `min score 100`. -/
def compute_geo_score (robots : RobotsResult) (llms : LlmsTxtResult)
    (schema : SchemaResult) (meta : MetaResult) (content : ContentResult) : Nat :=
  let score := 0
  let score := if robots.found then score + SCORING "robots_found" else score
  let score :=
    if robots.citation_bots_ok then score + SCORING "robots_citation_ok"
    else if !robots.bots_allowed.isEmpty then score + SCORING "robots_some_allowed"
    else score
  let score :=
    if llms.found then
      let score := score + SCORING "llms_found"
      let score := if llms.has_h1 then score + SCORING "llms_h1" else score
      let score := if llms.has_sections then score + SCORING "llms_sections" else score
      let score := if llms.has_links then score + SCORING "llms_links" else score
      score
    else score
  let score := if schema.has_website then score + SCORING "schema_website" else score
  let score := if schema.has_faq then score + SCORING "schema_faq" else score
  let score := if schema.has_webapp then score + SCORING "schema_webapp" else score
  let score := if meta.has_title then score + SCORING "meta_title" else score
  let score := if meta.has_description then score + SCORING "meta_description" else score
  let score := if meta.has_canonical then score + SCORING "meta_canonical" else score
  let score :=
    if meta.has_og_title && meta.has_og_description then score + SCORING "meta_og" else score
  let score := if content.has_h1 then score + SCORING "content_h1" else score
  let score := if content.has_numbers then score + SCORING "content_numbers" else score
  let score := if content.has_links then score + SCORING "content_links" else score
  min score 100

/-- Robots points: weight of each satisfied robots condition, with the
mutually exclusive citation/some-allowed bonus branch of §4.8. -/
def robots_points (r : RobotsResult) : Nat :=
  (if r.found then SCORING "robots_found" else 0) +
  (if r.citation_bots_ok then SCORING "robots_citation_ok"
   else if !r.bots_allowed.isEmpty then SCORING "robots_some_allowed" else 0)

/-- Llms.txt points: the found weight plus the three independent bonuses,
all gated on `found`. -/
def llms_points (l : LlmsTxtResult) : Nat :=
  if l.found then
    SCORING "llms_found" +
    ((if l.has_h1 then SCORING "llms_h1" else 0) +
     ((if l.has_sections then SCORING "llms_sections" else 0) +
      (if l.has_links then SCORING "llms_links" else 0)))
  else 0

/-- Schema points: three independent additive weights. -/
def schema_points (s : SchemaResult) : Nat :=
  (if s.has_website then SCORING "schema_website" else 0) +
  ((if s.has_faq then SCORING "schema_faq" else 0) +
   (if s.has_webapp then SCORING "schema_webapp" else 0))

/-- Meta points: three independent weights plus the og conjunction. -/
def meta_points (m : MetaResult) : Nat :=
  (if m.has_title then SCORING "meta_title" else 0) +
  ((if m.has_description then SCORING "meta_description" else 0) +
   ((if m.has_canonical then SCORING "meta_canonical" else 0) +
    (if m.has_og_title && m.has_og_description then SCORING "meta_og" else 0)))

/-- Content points: three independent additive weights. -/
def content_points (c : ContentResult) : Nat :=
  (if c.has_h1 then SCORING "content_h1" else 0) +
  ((if c.has_numbers then SCORING "content_numbers" else 0) +
   (if c.has_links then SCORING "content_links" else 0))

/-- Unclamped sum of the weights of all satisfied scoring conditions. -/
def geo_score_sum (robots : RobotsResult) (llms : LlmsTxtResult)
    (schema : SchemaResult) (meta : MetaResult) (content : ContentResult) : Nat :=
  robots_points robots +
  (llms_points llms + (schema_points schema + (meta_points meta + content_points content)))

/-- Accumulator shift: a guarded `score += w` adds an independent summand. -/
theorem ite_acc_shift (c : Prop) [Decidable c] (s w : Nat) :
    (if c then s + w else s) = s + (if c then w else 0) := by
  split <;> omega

/-- Accumulator shift for a two-branch guarded increment. -/
theorem ite_acc_shift2 (c : Prop) [Decidable c] (s w₁ w₂ : Nat) :
    (if c then s + w₁ else s + w₂) = s + (if c then w₁ else w₂) := by
  split <;> omega

/-- The sequential accumulation of `compute_geo_score` equals the clamped
sum of the five per-check point totals. -/
theorem compute_geo_score_eq (robots : RobotsResult) (llms : LlmsTxtResult)
    (schema : SchemaResult) (meta : MetaResult) (content : ContentResult) :
    compute_geo_score robots llms schema meta content =
      min (geo_score_sum robots llms schema meta content) 100 := by
  simp only [compute_geo_score, geo_score_sum, robots_points, llms_points, schema_points,
    meta_points, content_points, ite_acc_shift, ite_acc_shift2, Nat.add_assoc, Nat.zero_add]

/-- C1. The score aggregator is exact at both extremes: the all-default
input yields 0 and the all-true input yields 100; on every input the
result is the clamped sum `min (geo_score_sum ..) 100` of the fixed
weights of the satisfied conditions, and hence never exceeds 100. -/
theorem compute_geo_score_extremes_and_clamp :
    compute_geo_score {} {} {} {} {} = 0 ∧
    compute_geo_score
      { found := true, citation_bots_ok := true }
      { found := true, has_h1 := true, has_description := true, has_sections := true,
        has_links := true }
      { has_website := true, has_webapp := true, has_faq := true }
      { has_title := true, has_description := true, has_canonical := true,
        has_og_title := true, has_og_description := true, has_og_image := true }
      { has_h1 := true, has_numbers := true, has_links := true } = 100 ∧
    (∀ (robots : RobotsResult) (llms : LlmsTxtResult) (schema : SchemaResult)
      (meta : MetaResult) (content : ContentResult),
      compute_geo_score robots llms schema meta content =
        min (geo_score_sum robots llms schema meta content) 100) ∧
    (∀ (robots : RobotsResult) (llms : LlmsTxtResult) (schema : SchemaResult)
      (meta : MetaResult) (content : ContentResult),
      compute_geo_score robots llms schema meta content ≤ 100) := by
  refine ⟨by decide, by decide, compute_geo_score_eq, ?_⟩
  intro robots llms schema meta content
  rw [compute_geo_score_eq]
  exact Nat.min_le_right _ _

/-- Raising the robots component keeps the total score from decreasing. -/
theorem geo_mono_robots {r r' : RobotsResult} (h : robots_points r ≤ robots_points r')
    (l : LlmsTxtResult) (s : SchemaResult) (m : MetaResult) (c : ContentResult) :
    compute_geo_score r l s m c ≤ compute_geo_score r' l s m c := by
  rw [compute_geo_score_eq, compute_geo_score_eq]
  unfold geo_score_sum
  omega

/-- Raising the llms component keeps the total score from decreasing. -/
theorem geo_mono_llms {l l' : LlmsTxtResult} (h : llms_points l ≤ llms_points l')
    (r : RobotsResult) (s : SchemaResult) (m : MetaResult) (c : ContentResult) :
    compute_geo_score r l s m c ≤ compute_geo_score r l' s m c := by
  rw [compute_geo_score_eq, compute_geo_score_eq]
  unfold geo_score_sum
  omega

/-- Raising the schema component keeps the total score from decreasing. -/
theorem geo_mono_schema {s s' : SchemaResult} (h : schema_points s ≤ schema_points s')
    (r : RobotsResult) (l : LlmsTxtResult) (m : MetaResult) (c : ContentResult) :
    compute_geo_score r l s m c ≤ compute_geo_score r l s' m c := by
  rw [compute_geo_score_eq, compute_geo_score_eq]
  unfold geo_score_sum
  omega

/-- Raising the meta component keeps the total score from decreasing. -/
theorem geo_mono_meta {m m' : MetaResult} (h : meta_points m ≤ meta_points m')
    (r : RobotsResult) (l : LlmsTxtResult) (s : SchemaResult) (c : ContentResult) :
    compute_geo_score r l s m c ≤ compute_geo_score r l s m' c := by
  rw [compute_geo_score_eq, compute_geo_score_eq]
  unfold geo_score_sum
  omega

/-- Raising the content component keeps the total score from decreasing. -/
theorem geo_mono_content {c c' : ContentResult} (h : content_points c ≤ content_points c')
    (r : RobotsResult) (l : LlmsTxtResult) (s : SchemaResult) (m : MetaResult) :
    compute_geo_score r l s m c ≤ compute_geo_score r l s m c' := by
  rw [compute_geo_score_eq, compute_geo_score_eq]
  unfold geo_score_sum
  omega

/-- Flipping `robots.found` to true never lowers the robots points. -/
theorem robots_points_found_mono (r : RobotsResult) :
    robots_points { r with found := false } ≤ robots_points { r with found := true } := by
  rcases r with ⟨f, ba, bm, bb, cb⟩
  simp [robots_points]

/-- Flipping `robots.citation_bots_ok` to true never lowers the robots
points, even across the mutually exclusive bonus branch (15 versus 8). -/
theorem robots_points_citation_mono (r : RobotsResult) :
    robots_points { r with citation_bots_ok := false } ≤
      robots_points { r with citation_bots_ok := true } := by
  rcases r with ⟨f, ba, bm, bb, cb⟩
  simp [robots_points, SCORING]
  split_ifs <;> omega

/-- Flipping `llms.found` to true never lowers the llms points. -/
theorem llms_points_found_mono (l : LlmsTxtResult) :
    llms_points { l with found := false } ≤ llms_points { l with found := true } := by
  rcases l with ⟨f, h1, hd, hs, hl, wc⟩
  simp [llms_points]

/-- Flipping `llms.has_h1` to true never lowers the llms points. -/
theorem llms_points_h1_mono (l : LlmsTxtResult) :
    llms_points { l with has_h1 := false } ≤ llms_points { l with has_h1 := true } := by
  rcases l with ⟨f, h1, hd, hs, hl, wc⟩
  simp [llms_points]
  split_ifs <;> omega

/-- `llms.has_description` does not change the llms points. -/
theorem llms_points_description_mono (l : LlmsTxtResult) :
    llms_points { l with has_description := false } ≤
      llms_points { l with has_description := true } :=
  le_of_eq rfl

/-- Flipping `llms.has_sections` to true never lowers the llms points. -/
theorem llms_points_sections_mono (l : LlmsTxtResult) :
    llms_points { l with has_sections := false } ≤
      llms_points { l with has_sections := true } := by
  rcases l with ⟨f, h1, hd, hs, hl, wc⟩
  simp [llms_points]
  split_ifs <;> omega

/-- Flipping `llms.has_links` to true never lowers the llms points. -/
theorem llms_points_links_mono (l : LlmsTxtResult) :
    llms_points { l with has_links := false } ≤ llms_points { l with has_links := true } := by
  rcases l with ⟨f, h1, hd, hs, hl, wc⟩
  simp [llms_points]
  split_ifs <;> omega

/-- Flipping `schema.has_website` to true never lowers the schema points. -/
theorem schema_points_website_mono (s : SchemaResult) :
    schema_points { s with has_website := false } ≤
      schema_points { s with has_website := true } := by
  rcases s with ⟨ft, hw, hwa, hf, rs⟩
  simp [schema_points]

/-- Flipping `schema.has_webapp` to true never lowers the schema points. -/
theorem schema_points_webapp_mono (s : SchemaResult) :
    schema_points { s with has_webapp := false } ≤
      schema_points { s with has_webapp := true } := by
  rcases s with ⟨ft, hw, hwa, hf, rs⟩
  simp [schema_points]

/-- Flipping `schema.has_faq` to true never lowers the schema points. -/
theorem schema_points_faq_mono (s : SchemaResult) :
    schema_points { s with has_faq := false } ≤ schema_points { s with has_faq := true } := by
  rcases s with ⟨ft, hw, hwa, hf, rs⟩
  simp [schema_points]

/-- Flipping `meta.has_title` to true never lowers the meta points. -/
theorem meta_points_title_mono (m : MetaResult) :
    meta_points { m with has_title := false } ≤ meta_points { m with has_title := true } := by
  rcases m with ⟨t, d, cn, ot, od, oi, tt, dt, dl, tl, cu⟩
  simp [meta_points]

/-- Flipping `meta.has_description` to true never lowers the meta points. -/
theorem meta_points_description_mono (m : MetaResult) :
    meta_points { m with has_description := false } ≤
      meta_points { m with has_description := true } := by
  rcases m with ⟨t, d, cn, ot, od, oi, tt, dt, dl, tl, cu⟩
  simp [meta_points]

/-- Flipping `meta.has_canonical` to true never lowers the meta points. -/
theorem meta_points_canonical_mono (m : MetaResult) :
    meta_points { m with has_canonical := false } ≤
      meta_points { m with has_canonical := true } := by
  rcases m with ⟨t, d, cn, ot, od, oi, tt, dt, dl, tl, cu⟩
  simp [meta_points]

/-- Flipping `meta.has_og_title` to true never lowers the meta points
(the og weight needs both og flags, so the flip adds 4 or nothing). -/
theorem meta_points_og_title_mono (m : MetaResult) :
    meta_points { m with has_og_title := false } ≤
      meta_points { m with has_og_title := true } := by
  rcases m with ⟨t, d, cn, ot, od, oi, tt, dt, dl, tl, cu⟩
  simp [meta_points]

/-- Flipping `meta.has_og_description` to true never lowers the meta
points. -/
theorem meta_points_og_description_mono (m : MetaResult) :
    meta_points { m with has_og_description := false } ≤
      meta_points { m with has_og_description := true } := by
  rcases m with ⟨t, d, cn, ot, od, oi, tt, dt, dl, tl, cu⟩
  simp [meta_points]

/-- `meta.has_og_image` does not change the meta points. -/
theorem meta_points_og_image_mono (m : MetaResult) :
    meta_points { m with has_og_image := false } ≤
      meta_points { m with has_og_image := true } :=
  le_of_eq rfl

/-- Flipping `content.has_h1` to true never lowers the content points. -/
theorem content_points_h1_mono (c : ContentResult) :
    content_points { c with has_h1 := false } ≤ content_points { c with has_h1 := true } := by
  rcases c with ⟨h1, hc, hn, hl, wc, ht, nc, el⟩
  simp [content_points]

/-- Flipping `content.has_numbers` to true never lowers the content
points. -/
theorem content_points_numbers_mono (c : ContentResult) :
    content_points { c with has_numbers := false } ≤
      content_points { c with has_numbers := true } := by
  rcases c with ⟨h1, hc, hn, hl, wc, ht, nc, el⟩
  simp [content_points]

/-- Flipping `content.has_links` to true never lowers the content points. -/
theorem content_points_links_mono (c : ContentResult) :
    content_points { c with has_links := false } ≤
      content_points { c with has_links := true } := by
  rcases c with ⟨h1, hc, hn, hl, wc, ht, nc, el⟩
  simp [content_points]

/-- C2. `compute_geo_score` is monotonic: flipping any single boolean
field of the five check results from false to true, holding every other
field fixed, never decreases the returned score — including across the
mutually exclusive robots bonus branch and the og-title/og-description
conjunction. One conjunct per boolean field. -/
theorem compute_geo_score_monotone :
    (∀ (r : RobotsResult) (l : LlmsTxtResult) (s : SchemaResult) (m : MetaResult)
      (c : ContentResult),
      compute_geo_score { r with found := false } l s m c ≤
        compute_geo_score { r with found := true } l s m c) ∧
    (∀ (r : RobotsResult) (l : LlmsTxtResult) (s : SchemaResult) (m : MetaResult)
      (c : ContentResult), compute_geo_score { r with citation_bots_ok := false } l s m c ≤
        compute_geo_score { r with citation_bots_ok := true } l s m c) ∧
    (∀ (r : RobotsResult) (l : LlmsTxtResult) (s : SchemaResult) (m : MetaResult)
      (c : ContentResult), compute_geo_score r { l with found := false } s m c ≤
        compute_geo_score r { l with found := true } s m c) ∧
    (∀ (r : RobotsResult) (l : LlmsTxtResult) (s : SchemaResult) (m : MetaResult)
      (c : ContentResult), compute_geo_score r { l with has_h1 := false } s m c ≤
        compute_geo_score r { l with has_h1 := true } s m c) ∧
    (∀ (r : RobotsResult) (l : LlmsTxtResult) (s : SchemaResult) (m : MetaResult)
      (c : ContentResult), compute_geo_score r { l with has_description := false } s m c ≤
        compute_geo_score r { l with has_description := true } s m c) ∧
    (∀ (r : RobotsResult) (l : LlmsTxtResult) (s : SchemaResult) (m : MetaResult)
      (c : ContentResult), compute_geo_score r { l with has_sections := false } s m c ≤
        compute_geo_score r { l with has_sections := true } s m c) ∧
    (∀ (r : RobotsResult) (l : LlmsTxtResult) (s : SchemaResult) (m : MetaResult)
      (c : ContentResult), compute_geo_score r { l with has_links := false } s m c ≤
        compute_geo_score r { l with has_links := true } s m c) ∧
    (∀ (r : RobotsResult) (l : LlmsTxtResult) (s : SchemaResult) (m : MetaResult)
      (c : ContentResult), compute_geo_score r l { s with has_website := false } m c ≤
        compute_geo_score r l { s with has_website := true } m c) ∧
    (∀ (r : RobotsResult) (l : LlmsTxtResult) (s : SchemaResult) (m : MetaResult)
      (c : ContentResult), compute_geo_score r l { s with has_webapp := false } m c ≤
        compute_geo_score r l { s with has_webapp := true } m c) ∧
    (∀ (r : RobotsResult) (l : LlmsTxtResult) (s : SchemaResult) (m : MetaResult)
      (c : ContentResult), compute_geo_score r l { s with has_faq := false } m c ≤
        compute_geo_score r l { s with has_faq := true } m c) ∧
    (∀ (r : RobotsResult) (l : LlmsTxtResult) (s : SchemaResult) (m : MetaResult)
      (c : ContentResult), compute_geo_score r l s { m with has_title := false } c ≤
        compute_geo_score r l s { m with has_title := true } c) ∧
    (∀ (r : RobotsResult) (l : LlmsTxtResult) (s : SchemaResult) (m : MetaResult)
      (c : ContentResult), compute_geo_score r l s { m with has_description := false } c ≤
        compute_geo_score r l s { m with has_description := true } c) ∧
    (∀ (r : RobotsResult) (l : LlmsTxtResult) (s : SchemaResult) (m : MetaResult)
      (c : ContentResult), compute_geo_score r l s { m with has_canonical := false } c ≤
        compute_geo_score r l s { m with has_canonical := true } c) ∧
    (∀ (r : RobotsResult) (l : LlmsTxtResult) (s : SchemaResult) (m : MetaResult)
      (c : ContentResult), compute_geo_score r l s { m with has_og_title := false } c ≤
        compute_geo_score r l s { m with has_og_title := true } c) ∧
    (∀ (r : RobotsResult) (l : LlmsTxtResult) (s : SchemaResult) (m : MetaResult)
      (c : ContentResult), compute_geo_score r l s { m with has_og_description := false } c ≤
        compute_geo_score r l s { m with has_og_description := true } c) ∧
    (∀ (r : RobotsResult) (l : LlmsTxtResult) (s : SchemaResult) (m : MetaResult)
      (c : ContentResult), compute_geo_score r l s { m with has_og_image := false } c ≤
        compute_geo_score r l s { m with has_og_image := true } c) ∧
    (∀ (r : RobotsResult) (l : LlmsTxtResult) (s : SchemaResult) (m : MetaResult)
      (c : ContentResult), compute_geo_score r l s m { c with has_h1 := false } ≤
        compute_geo_score r l s m { c with has_h1 := true }) ∧
    (∀ (r : RobotsResult) (l : LlmsTxtResult) (s : SchemaResult) (m : MetaResult)
      (c : ContentResult), compute_geo_score r l s m { c with has_numbers := false } ≤
        compute_geo_score r l s m { c with has_numbers := true }) ∧
    (∀ (r : RobotsResult) (l : LlmsTxtResult) (s : SchemaResult) (m : MetaResult)
      (c : ContentResult), compute_geo_score r l s m { c with has_links := false } ≤
        compute_geo_score r l s m { c with has_links := true }) := by
  refine ⟨?_, ?_, ?_, ?_, ?_, ?_, ?_, ?_, ?_, ?_, ?_, ?_, ?_, ?_, ?_, ?_, ?_, ?_, ?_⟩ <;>
    intro r l s m c
  · exact geo_mono_robots (robots_points_found_mono r) l s m c
  · exact geo_mono_robots (robots_points_citation_mono r) l s m c
  · exact geo_mono_llms (llms_points_found_mono l) r s m c
  · exact geo_mono_llms (llms_points_h1_mono l) r s m c
  · exact geo_mono_llms (llms_points_description_mono l) r s m c
  · exact geo_mono_llms (llms_points_sections_mono l) r s m c
  · exact geo_mono_llms (llms_points_links_mono l) r s m c
  · exact geo_mono_schema (schema_points_website_mono s) r l m c
  · exact geo_mono_schema (schema_points_webapp_mono s) r l m c
  · exact geo_mono_schema (schema_points_faq_mono s) r l m c
  · exact geo_mono_meta (meta_points_title_mono m) r l s c
  · exact geo_mono_meta (meta_points_description_mono m) r l s c
  · exact geo_mono_meta (meta_points_canonical_mono m) r l s c
  · exact geo_mono_meta (meta_points_og_title_mono m) r l s c
  · exact geo_mono_meta (meta_points_og_description_mono m) r l s c
  · exact geo_mono_meta (meta_points_og_image_mono m) r l s c
  · exact geo_mono_content (content_points_h1_mono c) r l s m
  · exact geo_mono_content (content_points_numbers_mono c) r l s m
  · exact geo_mono_content (content_points_links_mono c) r l s m

/-!
Robots.txt parsing and bot classification
(`src/geo_optimizer/utils/robots_parser.py`).
-/

/-- `AgentRules` (robots_parser.py 16-21). -/
structure AgentRules where
  allow : List String := []
  disallow : List String := []
deriving DecidableEq

/-- `BotStatus` (robots_parser.py 24-32). -/
structure BotStatus where
  bot : String
  description : String
  status : String
  matched_agent : Option String := none
  disallow_paths : List String := []
deriving DecidableEq

/-- The `agent_rules` dict `agent name → AgentRules`: modelled as an
association list in insertion order; the parser keeps keys unique. -/
abbrev AgentRulesMap := List (String × AgentRules)

/-- Python dict lookup `m[k]`, as an option. -/
def lookupAgent (m : AgentRulesMap) (k : String) : Option AgentRules :=
  (m.find? (fun p => p.1 == k)).map (fun p => p.2)

/-- In-place mutation of the dict entry at key `k` (`agent_rules[k]` is
mutated through `.append` in the source). A missing key is left alone;
the parser only ever updates keys it has already inserted. -/
def updateAgent (m : AgentRulesMap) (k : String) (f : AgentRules → AgentRules) : AgentRulesMap :=
  m.map (fun p => if p.1 == k then (p.1, f p.2) else p)

/-- Loop state of `parse_robots_txt` (robots_parser.py 50-52). -/
structure ParseState where
  agent_rules : AgentRulesMap := []
  current_agents : List String := []
  last_was_agent : Bool := false
deriving DecidableEq

/-- Body of the `for line in content.splitlines()` loop of
`parse_robots_txt` (robots_parser.py 54-82): strip the line, skip blanks
and comments, then dispatch on the (case-insensitive) directive key.
`User-agent:` resets the stacked agents when the previous non-skipped
line was not itself an agent line, ensures a dict entry, and stacks the
agent; `Disallow:`/`Allow:` append the extracted path to every stacked
agent's list; anything else only breaks the stacking. -/
def process_line (st : ParseState) (rawLine : String) : ParseState :=
  let line := pyStrip rawLine
  if pyIsEmpty line || pyStartsWith line "#" then st
  else
    let lower := pyLower line
    if pyStartsWith lower "user-agent:" then
      let agent := pyStrip (pySplitOnceTail line ":")
      let agent := pyStrip (pySplitHead agent "#")
      let current_agents := if !st.last_was_agent then [] else st.current_agents
      let agent_rules :=
        if st.agent_rules.any (fun p => p.1 == agent) then st.agent_rules
        else st.agent_rules ++ [(agent, ({} : AgentRules))]
      { agent_rules := agent_rules, current_agents := current_agents ++ [agent],
        last_was_agent := true }
    else if pyStartsWith lower "disallow:" then
      let path := pyStrip (pySplitOnceTail line ":")
      let path := pyStrip (pySplitHead path "#")
      { st with
        agent_rules := st.current_agents.foldl
          (fun m a => updateAgent m a (fun r => { r with disallow := r.disallow ++ [path] }))
          st.agent_rules,
        last_was_agent := false }
    else if pyStartsWith lower "allow:" then
      let path := pyStrip (pySplitOnceTail line ":")
      let path := pyStrip (pySplitHead path "#")
      { st with
        agent_rules := st.current_agents.foldl
          (fun m a => updateAgent m a (fun r => { r with allow := r.allow ++ [path] }))
          st.agent_rules,
        last_was_agent := false }
    else { st with last_was_agent := false }

/-- `parse_robots_txt` (robots_parser.py 35-84). -/
def parse_robots_txt (content : String) : AgentRulesMap :=
  ((splitlines content).foldl process_line {}).agent_rules

/-- Matched-agent search of `classify_bot` (robots_parser.py 105-113):
the first case-insensitive direct match, else the literal `*` entry. -/
def find_matched_agent (bot : String) (agent_rules : AgentRulesMap) : Option String :=
  match (agent_rules.find? (fun p => pyLower p.1 == pyLower bot)).map (fun p => p.1) with
  | some a => some a
  | none => if agent_rules.any (fun p => p.1 == "*") then some "*" else none

/-- `classify_bot` (robots_parser.py 87-144). The matched-agent loop is
factored out as `find_matched_agent`; `agent_rules[found_agent]` is a
lookup that always succeeds for a matched agent. -/
def classify_bot (bot description : String) (agent_rules : AgentRulesMap) : BotStatus :=
  match find_matched_agent bot agent_rules with
  | none => { bot := bot, description := description, status := "missing" }
  | some found_agent =>
    let rules := (lookupAgent agent_rules found_agent).getD {}
    let is_blocked := rules.disallow.any (fun d => d == "/" || d == "/*")
    let has_allow_root := rules.allow.any (fun a => a == "/" || a == "/*")
    if is_blocked && !has_allow_root then
      { bot := bot, description := description, status := "blocked",
        matched_agent := some found_agent, disallow_paths := rules.disallow }
    else if rules.disallow.isEmpty || rules.disallow.all (fun d => d == "") then
      { bot := bot, description := description, status := "allowed",
        matched_agent := some found_agent }
    else
      { bot := bot, description := description, status := "allowed",
        matched_agent := some found_agent, disallow_paths := rules.disallow }

/-- Adding an `Allow: /` entry for agent `a` to a parsed rules map. -/
def add_allow_root (m : AgentRulesMap) (a : String) : AgentRulesMap :=
  updateAgent m a (fun r => { r with allow := r.allow ++ ["/"] })

/-- Unfolding lemma: lookup in a cons checks the head key first. -/
theorem lookupAgent_cons (q : String × AgentRules) (ps : AgentRulesMap) (j : String) :
    lookupAgent (q :: ps) j = if (q.1 == j) = true then some q.2 else lookupAgent ps j := by
  by_cases h : (q.1 == j) = true <;> simp [lookupAgent, h]

/-- The head of an updated entry keeps its key. -/
theorem updateAgent_head_key (p : String × AgentRules) (k : String)
    (f : AgentRules → AgentRules) :
    (if (p.1 == k) = true then (p.1, f p.2) else p).1 = p.1 := by
  split <;> rfl

/-- Unfolding lemma: a key-predicate `find?` checks the head key first. -/
theorem find?_key_cons (pred : String → Bool) (q : String × AgentRules) (ps : AgentRulesMap) :
    List.find? (fun p => pred p.1) (q :: ps)
      = if pred q.1 = true then some q else List.find? (fun p => pred p.1) ps := by
  by_cases h : pred q.1 = true <;> simp [h]

/-- A key present in the map (in the sense of `any`) has a value. -/
theorem lookupAgent_isSome_of_any (m : AgentRulesMap) (k : String)
    (h : m.any (fun p => p.1 == k) = true) : ∃ r, lookupAgent m k = some r := by
  induction m with
  | nil => simp at h
  | cons p ps ih =>
    rw [lookupAgent_cons]
    by_cases hk : (p.1 == k) = true
    · exact ⟨p.2, by rw [if_pos hk]⟩
    · have h' : ps.any (fun q => q.1 == k) = true := by
        simpa [hk] using h
      obtain ⟨r, hr⟩ := ih h'
      exact ⟨r, by rw [if_neg hk]; exact hr⟩

/-- A matched agent always has an entry in the rules map. -/
theorem find_matched_agent_lookup (bot : String) (m : AgentRulesMap) (a : String)
    (h : find_matched_agent bot m = some a) : ∃ r, lookupAgent m a = some r := by
  unfold find_matched_agent at h
  cases hd : (m.find? (fun p => pyLower p.1 == pyLower bot)) with
  | some p =>
    rw [hd] at h
    have h2 : some p.1 = some a := h
    obtain rfl : p.1 = a := by injection h2
    refine lookupAgent_isSome_of_any m p.1 ?_
    have hmem := List.mem_of_find?_eq_some hd
    exact List.any_eq_true.mpr ⟨p, hmem, by simp⟩
  | none =>
    rw [hd] at h
    have h2 : (if (m.any (fun p => p.1 == "*")) = true then some "*"
        else (none : Option String)) = some a := h
    by_cases hw : (m.any (fun p => p.1 == "*")) = true
    · rw [if_pos hw] at h2
      obtain rfl : "*" = a := by injection h2
      exact lookupAgent_isSome_of_any m "*" hw
    · rw [if_neg hw] at h2
      cases h2

/-- `updateAgent` preserves the keys seen by a key-only `find?`. -/
theorem updateAgent_find?_key (m : AgentRulesMap) (k : String) (f : AgentRules → AgentRules)
    (pred : String → Bool) :
    ((updateAgent m k f).find? (fun p => pred p.1)).map (fun p => p.1)
      = (m.find? (fun p => pred p.1)).map (fun p => p.1) := by
  induction m with
  | nil => rfl
  | cons p ps ih =>
    simp only [updateAgent, List.map_cons] at ih ⊢
    rw [find?_key_cons, find?_key_cons, updateAgent_head_key]
    by_cases hp : pred p.1 = true
    · rw [if_pos hp, if_pos hp]
      simp only [Option.map]
      rw [updateAgent_head_key]
    · rw [if_neg hp, if_neg hp]
      exact ih

/-- `updateAgent` preserves key-only `any` queries. -/
theorem updateAgent_any_key (m : AgentRulesMap) (k : String) (f : AgentRules → AgentRules)
    (pred : String → Bool) :
    (updateAgent m k f).any (fun p => pred p.1) = m.any (fun p => pred p.1) := by
  induction m with
  | nil => rfl
  | cons p ps ih =>
    simp only [updateAgent, List.map_cons, List.any_cons] at ih ⊢
    rw [updateAgent_head_key, ih]

/-- The matched agent is unchanged by a value-only map update. -/
theorem find_matched_agent_updateAgent (bot : String) (m : AgentRulesMap) (k : String)
    (f : AgentRules → AgentRules) :
    find_matched_agent bot (updateAgent m k f) = find_matched_agent bot m := by
  unfold find_matched_agent
  rw [updateAgent_find?_key m k f (fun s => pyLower s == pyLower bot),
    updateAgent_any_key m k f (fun s => s == "*")]

/-- Lookup of the updated key sees the updated value. -/
theorem lookupAgent_updateAgent_self (m : AgentRulesMap) (k : String)
    (f : AgentRules → AgentRules) :
    lookupAgent (updateAgent m k f) k = (lookupAgent m k).map f := by
  induction m with
  | nil => rfl
  | cons p ps ih =>
    simp only [updateAgent, List.map_cons] at ih ⊢
    by_cases hpk : (p.1 == k) = true
    · rw [if_pos hpk]
      rw [lookupAgent_cons, lookupAgent_cons]
      simp only [hpk, if_pos]
      simp
    · rw [if_neg (by simp_all)]
      rw [lookupAgent_cons, lookupAgent_cons]
      simp only [hpk]
      simpa using ih

/-- Lookup of any other key is untouched by the update. -/
theorem lookupAgent_updateAgent_other (m : AgentRulesMap) (k j : String)
    (f : AgentRules → AgentRules) (hjk : j ≠ k) :
    lookupAgent (updateAgent m k f) j = lookupAgent m j := by
  induction m with
  | nil => rfl
  | cons p ps ih =>
    simp only [updateAgent, List.map_cons] at ih ⊢
    by_cases hpk : (p.1 == k) = true
    · have hpj : (p.1 == j) = false := by
        have : p.1 = k := by simpa using hpk
        simp [this]
        exact fun h => hjk h.symm
      rw [if_pos hpk, lookupAgent_cons, lookupAgent_cons]
      simp only [hpj]
      simpa using ih
    · rw [if_neg (by simp_all), lookupAgent_cons, lookupAgent_cons]
      by_cases hpj : (p.1 == j) = true <;> simp [hpj] <;> simpa using ih

/-- Membership form of the root-blocking test `d in ["/", "/*"]`. -/
theorem any_root_iff (l : List String) :
    (l.any (fun d => d == "/" || d == "/*")) = true ↔ "/" ∈ l ∨ "/*" ∈ l := by
  simp only [List.any_eq_true, Bool.or_eq_true, beq_iff_eq]
  constructor
  · rintro ⟨x, hx, h | h⟩
    · exact Or.inl (h ▸ hx)
    · exact Or.inr (h ▸ hx)
  · rintro (h | h)
    · exact ⟨"/", h, Or.inl rfl⟩
    · exact ⟨"/*", h, Or.inr rfl⟩

/-- Status characterisation of `classify_bot`: `missing` without a match,
otherwise `blocked` exactly on the root-disallow/no-root-allow branch and
`allowed` in the two remaining branches. -/
theorem classify_bot_status (bot d : String) (m : AgentRulesMap) :
    (classify_bot bot d m).status =
      match find_matched_agent bot m with
      | none => "missing"
      | some a =>
        let rules := (lookupAgent m a).getD {}
        if ((rules.disallow.any (fun x => x == "/" || x == "/*")) &&
            !(rules.allow.any (fun x => x == "/" || x == "/*"))) = true
        then "blocked" else "allowed" := by
  unfold classify_bot
  cases find_matched_agent bot m with
  | none => rfl
  | some a =>
    simp only []
    split_ifs <;> rfl

/-- C3. `classify_bot` returns `blocked` iff the matched agent (direct
case-insensitive match, else the `*` entry) has `/` or `/*` in its
disallow list and neither in its allow list; adding `/` to that agent's
allow list flips the status to `allowed`; and without any match the
status is `missing`, never `allowed` or `blocked`. -/
theorem classify_bot_spec (bot description : String) (agent_rules : AgentRulesMap) :
    ((classify_bot bot description agent_rules).status = "blocked" ↔
      ∃ a rules, find_matched_agent bot agent_rules = some a ∧
        lookupAgent agent_rules a = some rules ∧
        ("/" ∈ rules.disallow ∨ "/*" ∈ rules.disallow) ∧
        ¬("/" ∈ rules.allow ∨ "/*" ∈ rules.allow)) ∧
    (∀ a, find_matched_agent bot agent_rules = some a →
      (classify_bot bot description agent_rules).status = "blocked" →
      (classify_bot bot description (add_allow_root agent_rules a)).status = "allowed") ∧
    (find_matched_agent bot agent_rules = none →
      (classify_bot bot description agent_rules).status = "missing") := by
  refine ⟨?_, ?_, ?_⟩
  · rw [classify_bot_status]
    cases hf : find_matched_agent bot agent_rules with
    | none =>
      constructor
      · intro h
        exact absurd (show "missing" = "blocked" from h) (by decide)
      · rintro ⟨a, rules, ha, -⟩
        cases ha
    | some a =>
      obtain ⟨rules, hr⟩ := find_matched_agent_lookup bot agent_rules a hf
      simp only [hr, Option.getD_some]
      by_cases hb : (rules.disallow.any (fun x => x == "/" || x == "/*")) = true
      · by_cases hal : (rules.allow.any (fun x => x == "/" || x == "/*")) = true
        · rw [if_neg (by simp [hb, hal])]
          constructor
          · intro h
            exact absurd h (by decide)
          · rintro ⟨a', rules', ha', hr', hd', hna'⟩
            obtain rfl : a = a' := by injection ha'
            rw [hr] at hr'
            obtain rfl : rules = rules' := by injection hr'
            exact absurd ((any_root_iff rules.allow).mp hal) hna'
        · rw [if_pos (by simp [hb, hal])]
          constructor
          · intro _
            exact ⟨a, rules, rfl, hr, (any_root_iff _).mp hb,
              fun hmem => hal ((any_root_iff _).mpr hmem)⟩
          · intro _
            rfl
      · rw [if_neg (by simp [hb])]
        constructor
        · intro h
          exact absurd h (by decide)
        · rintro ⟨a', rules', ha', hr', hd', -⟩
          obtain rfl : a = a' := by injection ha'
          rw [hr] at hr'
          obtain rfl : rules = rules' := by injection hr'
          exact absurd ((any_root_iff rules.disallow).mpr hd') hb
  · intro a hf hblocked
    obtain ⟨rules, hr⟩ := find_matched_agent_lookup bot agent_rules a hf
    have hlook : lookupAgent (add_allow_root agent_rules a) a
        = some { rules with allow := rules.allow ++ ["/"] } := by
      unfold add_allow_root
      rw [lookupAgent_updateAgent_self, hr]
      rfl
    have har : ((rules.allow ++ ["/"]).any (fun x => x == "/" || x == "/*")) = true :=
      (any_root_iff _).mpr (Or.inl (List.mem_append_right _ (by simp)))
    rw [classify_bot_status]
    unfold add_allow_root
    rw [find_matched_agent_updateAgent, hf]
    simp only []
    unfold add_allow_root at hlook
    rw [hlook, Option.getD_some]
    rw [if_neg (by simp [har])]
  · intro hf
    rw [classify_bot_status, hf]

/-- Witness for C3 at concrete inputs: a bot blocked through a
case-insensitive match on `Disallow: /`, the allow-root override, and a
missing bot on an empty rules map. -/
theorem classify_bot_spec_witness :
    (classify_bot "gptbot" "OpenAI" [("GPTBot", { allow := [], disallow := ["/"] })]).status
        = "blocked" ∧
    (classify_bot "gptbot" "OpenAI"
        (add_allow_root [("GPTBot", { allow := [], disallow := ["/"] })] "GPTBot")).status
        = "allowed" ∧
    (classify_bot "NoSuchBot" "x" []).status = "missing" := by
  refine ⟨?_, ?_, ?_⟩
  · exact (classify_bot_spec "gptbot" "OpenAI" _).1.mpr
      ⟨"GPTBot", { allow := [], disallow := ["/"] }, by decide, by decide, by decide, by decide⟩
  · exact (classify_bot_spec "gptbot" "OpenAI" _).2.1 "GPTBot" (by decide) (by decide)
  · exact (classify_bot_spec "NoSuchBot" "x" []).2.2 (by decide)

/-- Appending through a fold of updates: with distinct stacked agents, a
stacked agent's entry is updated exactly once and any other key is
untouched. -/
theorem lookupAgent_foldl_updateAgent (agents : List String) (f : AgentRules → AgentRules) :
    ∀ (m : AgentRulesMap) (a : String), agents.Nodup →
      lookupAgent (agents.foldl (fun acc x => updateAgent acc x f) m) a
        = if a ∈ agents then (lookupAgent m a).map f else lookupAgent m a := by
  induction agents with
  | nil =>
    intro m a _
    simp
  | cons x xs ih =>
    intro m a hnd
    rcases List.nodup_cons.mp hnd with ⟨hx, hxs⟩
    rw [List.foldl_cons, ih _ a hxs]
    by_cases hax : a = x
    · subst hax
      rw [if_neg (fun h => hx h), lookupAgent_updateAgent_self,
        if_pos (List.mem_cons_self a xs)]
    · rw [lookupAgent_updateAgent_other _ _ _ _ hax]
      by_cases haxs : a ∈ xs
      · rw [if_pos haxs, if_pos (List.mem_cons_of_mem x haxs)]
      · rw [if_neg haxs, if_neg (by simp [hax, haxs])]

/-- The directive value extraction shared by the branches of
`process_line`: `line.split(":", 1)[1].strip()` followed by
`.split("#")[0].strip()` (inline comment removal). -/
def directive_value (line : String) : String :=
  pyStrip (pySplitHead (pyStrip (pySplitOnceTail line ":")) "#")

/-- Blank and comment lines leave the parser state untouched. -/
theorem process_line_skip (st : ParseState) (l : String)
    (h : pyIsEmpty (pyStrip l) = true ∨ pyStartsWith (pyStrip l) "#" = true) :
    process_line st l = st := by
  rcases h with h | h <;> simp [process_line, h]

/-- Folding the parser over blank and comment lines only is the identity. -/
theorem foldl_process_line_skip (ls : List String) :
    ∀ st : ParseState,
      (∀ l ∈ ls, pyIsEmpty (pyStrip l) = true ∨ pyStartsWith (pyStrip l) "#" = true) →
      ls.foldl process_line st = st := by
  induction ls with
  | nil =>
    intro st _
    rfl
  | cons x xs ih =>
    intro st h
    rw [List.foldl_cons, process_line_skip st x (h x (List.mem_cons_self x xs))]
    exact ih st (fun l hl => h l (List.mem_cons_of_mem x hl))

/-- C4. RFC 9309 stacking in `parse_robots_txt`: a `Disallow:` line
appends its path to every currently stacked agent's disallow list (and
only those agents), and an `Allow:` line appends its path to every
currently stacked agent's allow list likewise; a `User-agent:` line
resets the stack when the previous non-skipped line was not an agent
line, stacks the agent and ensures its entry exists; any other directive
line only breaks the stacking; the concrete stacked input classifies
both `A` and `B` as `blocked`; empty or comments-only input parses to an
empty map. -/
theorem parse_robots_txt_spec :
    (∀ (st : ParseState) (rawLine : String),
      pyIsEmpty (pyStrip rawLine) = false →
      pyStartsWith (pyStrip rawLine) "#" = false →
      pyStartsWith (pyLower (pyStrip rawLine)) "user-agent:" = false →
      pyStartsWith (pyLower (pyStrip rawLine)) "disallow:" = true →
      st.current_agents.Nodup →
      (∀ a, a ∈ st.current_agents →
        lookupAgent (process_line st rawLine).agent_rules a
          = (lookupAgent st.agent_rules a).map
              (fun r =>
                { r with disallow := r.disallow ++ [directive_value (pyStrip rawLine)] })) ∧
      (∀ a, a ∉ st.current_agents →
        lookupAgent (process_line st rawLine).agent_rules a
          = lookupAgent st.agent_rules a) ∧
      (process_line st rawLine).current_agents = st.current_agents ∧
      (process_line st rawLine).last_was_agent = false) ∧
    (∀ (st : ParseState) (rawLine : String),
      pyIsEmpty (pyStrip rawLine) = false →
      pyStartsWith (pyStrip rawLine) "#" = false →
      pyStartsWith (pyLower (pyStrip rawLine)) "user-agent:" = false →
      pyStartsWith (pyLower (pyStrip rawLine)) "disallow:" = false →
      pyStartsWith (pyLower (pyStrip rawLine)) "allow:" = true →
      st.current_agents.Nodup →
      (∀ a, a ∈ st.current_agents →
        lookupAgent (process_line st rawLine).agent_rules a
          = (lookupAgent st.agent_rules a).map
              (fun r =>
                { r with allow := r.allow ++ [directive_value (pyStrip rawLine)] })) ∧
      (∀ a, a ∉ st.current_agents →
        lookupAgent (process_line st rawLine).agent_rules a
          = lookupAgent st.agent_rules a) ∧
      (process_line st rawLine).current_agents = st.current_agents ∧
      (process_line st rawLine).last_was_agent = false) ∧
    (∀ (st : ParseState) (rawLine : String),
      pyIsEmpty (pyStrip rawLine) = false →
      pyStartsWith (pyStrip rawLine) "#" = false →
      pyStartsWith (pyLower (pyStrip rawLine)) "user-agent:" = true →
      (process_line st rawLine).current_agents
        = (if !st.last_was_agent then [] else st.current_agents)
            ++ [directive_value (pyStrip rawLine)] ∧
      (process_line st rawLine).last_was_agent = true ∧
      (process_line st rawLine).agent_rules
        = (if st.agent_rules.any (fun p => p.1 == directive_value (pyStrip rawLine))
           then st.agent_rules
           else st.agent_rules ++ [(directive_value (pyStrip rawLine), ({} : AgentRules))])) ∧
    (∀ (st : ParseState) (rawLine : String),
      pyIsEmpty (pyStrip rawLine) = false →
      pyStartsWith (pyStrip rawLine) "#" = false →
      pyStartsWith (pyLower (pyStrip rawLine)) "user-agent:" = false →
      pyStartsWith (pyLower (pyStrip rawLine)) "disallow:" = false →
      pyStartsWith (pyLower (pyStrip rawLine)) "allow:" = false →
      process_line st rawLine = { st with last_was_agent := false }) ∧
    ((classify_bot "A" "desc"
        (parse_robots_txt "User-agent: A\nUser-agent: B\nDisallow: /\n")).status
        = "blocked" ∧
     (classify_bot "B" "desc"
        (parse_robots_txt "User-agent: A\nUser-agent: B\nDisallow: /\n")).status
        = "blocked") ∧
    parse_robots_txt "" = [] ∧
    (∀ content : String,
      (∀ l ∈ splitlines content,
        pyIsEmpty (pyStrip l) = true ∨ pyStartsWith (pyStrip l) "#" = true) →
      parse_robots_txt content = []) := by
  refine ⟨?_, ?_, ?_, ?_, ⟨by decide, by decide⟩, by decide, ?_⟩
  · intro st rawLine h1 h2 h3 h4 hnd
    rcases st with ⟨ar, ca, lw⟩
    refine ⟨?_, ?_, ?_, ?_⟩
    · intro a ha
      simp only [process_line, h1, h2, h3, h4, Bool.or_self, Bool.false_or, if_false,
        if_true, Bool.false_eq_true, ite_false, ite_true]
      rw [lookupAgent_foldl_updateAgent _ _ _ _ hnd, if_pos ha]
      rfl
    · intro a ha
      simp only [process_line, h1, h2, h3, h4, Bool.or_self, Bool.false_or, if_false,
        if_true, Bool.false_eq_true, ite_false, ite_true]
      rw [lookupAgent_foldl_updateAgent _ _ _ _ hnd, if_neg ha]
    · simp only [process_line, h1, h2, h3, h4, Bool.or_self, Bool.false_or, if_false,
        if_true, Bool.false_eq_true, ite_false, ite_true]
    · simp only [process_line, h1, h2, h3, h4, Bool.or_self, Bool.false_or, if_false,
        if_true, Bool.false_eq_true, ite_false, ite_true]
  · intro st rawLine h1 h2 h3 h4 h5 hnd
    rcases st with ⟨ar, ca, lw⟩
    refine ⟨?_, ?_, ?_, ?_⟩
    · intro a ha
      simp only [process_line, h1, h2, h3, h4, h5, Bool.or_self, Bool.false_or, if_false,
        if_true, Bool.false_eq_true, ite_false, ite_true]
      rw [lookupAgent_foldl_updateAgent _ _ _ _ hnd, if_pos ha]
      rfl
    · intro a ha
      simp only [process_line, h1, h2, h3, h4, h5, Bool.or_self, Bool.false_or, if_false,
        if_true, Bool.false_eq_true, ite_false, ite_true]
      rw [lookupAgent_foldl_updateAgent _ _ _ _ hnd, if_neg ha]
    · simp only [process_line, h1, h2, h3, h4, h5, Bool.or_self, Bool.false_or, if_false,
        if_true, Bool.false_eq_true, ite_false, ite_true]
    · simp only [process_line, h1, h2, h3, h4, h5, Bool.or_self, Bool.false_or, if_false,
        if_true, Bool.false_eq_true, ite_false, ite_true]
  · intro st rawLine h1 h2 h3
    rcases st with ⟨ar, ca, lw⟩
    refine ⟨?_, ?_, ?_⟩ <;>
      simp only [process_line, h1, h2, h3, Bool.or_self, Bool.false_or, if_false, if_true,
        Bool.false_eq_true, ite_false, ite_true] <;>
      rfl
  · intro st rawLine h1 h2 h3 h4 h5
    rcases st with ⟨ar, ca, lw⟩
    simp only [process_line, h1, h2, h3, h4, h5, Bool.or_self, Bool.false_or, if_false,
      if_true, Bool.false_eq_true, ite_false, ite_true]
  · intro content h
    unfold parse_robots_txt
    rw [foldl_process_line_skip _ _ h]

/-- Witness for C4 at concrete inputs: a disallow line appending to a
stacked agent, an allow line appending to a stacked agent, a user-agent
line stacking onto an empty stack, an unrelated directive only breaking
the stacking, and a comments-only input parsing to the empty map. -/
theorem parse_robots_txt_spec_witness :
    lookupAgent
        (process_line
          { agent_rules := [("A", ({} : AgentRules))], current_agents := ["A"],
            last_was_agent := true }
          "Disallow: / # root").agent_rules "A"
      = some { allow := [], disallow := ["/"] } ∧
    lookupAgent
        (process_line
          { agent_rules := [("B", ({} : AgentRules))], current_agents := ["B"],
            last_was_agent := false }
          "Allow: /docs").agent_rules "B"
      = some { allow := ["/docs"], disallow := [] } ∧
    (process_line ({} : ParseState) "User-agent: A").current_agents = ["A"] ∧
    process_line ({} : ParseState) "Crawl-delay: 5"
      = { ({} : ParseState) with last_was_agent := false } ∧
    parse_robots_txt "# hello\n\n# world" = [] := by
  refine ⟨?_, ?_, ?_, ?_, ?_⟩
  · have h := (parse_robots_txt_spec.1
      { agent_rules := [("A", ({} : AgentRules))], current_agents := ["A"],
        last_was_agent := true }
      "Disallow: / # root" (by decide) (by decide) (by decide) (by decide) (by decide)).1
      "A" (by decide)
    rw [h]
    decide
  · have h := (parse_robots_txt_spec.2.1
      { agent_rules := [("B", ({} : AgentRules))], current_agents := ["B"],
        last_was_agent := false }
      "Allow: /docs" (by decide) (by decide) (by decide) (by decide) (by decide)
      (by decide)).1 "B" (by decide)
    rw [h]
    decide
  · have h := (parse_robots_txt_spec.2.2.1 ({} : ParseState) "User-agent: A"
      (by decide) (by decide) (by decide)).1
    rw [h]
    decide
  · exact parse_robots_txt_spec.2.2.2.1 ({} : ParseState) "Crawl-delay: 5"
      (by decide) (by decide) (by decide) (by decide) (by decide)
  · exact parse_robots_txt_spec.2.2.2.2.2.2 "# hello\n\n# world" (by decide)

/-!
Schema check (`audit_schema`, audit.py 112-154).

The HTML and JSON parsing layers (BeautifulSoup, `json.loads`) are outside
the embedding: the check's input is modelled as the list of per-script
parse outcomes, in document order — `none` for a script whose text is
missing/whitespace-only or fails to parse (both silently skipped in the
source), `some v` for a script parsed to the JSON value `v`.
-/

/-- Python `dict.get` on a parsed JSON object's fields (`json.loads`
keeps keys unique, so the first match is the value). -/
def jget (fields : List (String × JValue)) (k : String) : Option JValue :=
  (fields.find? (fun p => p.1 == k)).map (fun p => p.2)

/-- Python `t == "s"` for a JSON value `t`: only a string can be equal. -/
def jvalue_eq_str (t : JValue) (s : String) : Bool :=
  match t with
  | .str x => x == s
  | _ => false

/-- The `data if isinstance(data, list) else [data]` normalisation of
`audit_schema` (audit.py 129), also used for `@type` values. -/
def block_objs : JValue → List JValue
  | .arr l => l
  | v => [v]

/-- Per-type step of `audit_schema` (audit.py 141-149): append the type
value to `found_types` and set the matching flag (if/elif chain). -/
def record_type (r : SchemaResult) (t : JValue) : SchemaResult :=
  let r := { r with found_types := r.found_types ++ [t] }
  if jvalue_eq_str t "WebSite" then { r with has_website := true }
  else if jvalue_eq_str t "WebApplication" then { r with has_webapp := true }
  else if jvalue_eq_str t "FAQPage" then { r with has_faq := true }
  else r

/-- Per-object step of `audit_schema` (audit.py 131-149): read `@type`
(default the string `"unknown"`), normalise to a list of type values,
append the object itself to `raw_schemas` exactly once, then record each
type value. A non-object element makes Python's `schema.get` raise an
uncaught `AttributeError`; modelled as `none`. -/
def process_schema (r : SchemaResult) (schema : JValue) : Option SchemaResult :=
  match schema with
  | .obj fields =>
    let schema_type := (jget fields "@type").getD (.str "unknown")
    let schema_types := block_objs schema_type
    let r := { r with raw_schemas := r.raw_schemas ++ [JValue.obj fields] }
    some (schema_types.foldl record_type r)
  | _ => none

/-- Per-script-block step of `audit_schema` (audit.py 120-152): a skipped
block leaves the accumulator unchanged; a parsed block is normalised to
its list of objects, processed in order. -/
def process_block (r : SchemaResult) (block : Option JValue) : Option SchemaResult :=
  match block with
  | none => some r
  | some data => (block_objs data).foldlM process_schema r

/-- `audit_schema` (audit.py 112-154) on the per-script parse outcomes.
An empty script list returns the default result, like the early return
in the source. -/
def audit_schema (scripts : List (Option JValue)) : Option SchemaResult :=
  scripts.foldlM process_block ({} : SchemaResult)

/-- Recording a type value never touches `raw_schemas`. -/
theorem record_type_raw (r : SchemaResult) (t : JValue) :
    (record_type r t).raw_schemas = r.raw_schemas := by
  unfold record_type
  split_ifs <;> rfl

/-- Recording a list of type values never touches `raw_schemas`. -/
theorem foldl_record_type_raw (types : List JValue) :
    ∀ r : SchemaResult, (types.foldl record_type r).raw_schemas = r.raw_schemas := by
  induction types with
  | nil =>
    intro r
    rfl
  | cons t ts ih =>
    intro r
    rw [List.foldl_cons, ih, record_type_raw]

/-- Each successfully processed object adds exactly one raw schema. -/
theorem process_schema_raw (r r' : SchemaResult) (s : JValue)
    (h : process_schema r s = some r') :
    r'.raw_schemas.length = r.raw_schemas.length + 1 := by
  cases s with
  | obj fields =>
    unfold process_schema at h
    obtain rfl : _ = r' := by injection h
    rw [foldl_record_type_raw]
    simp
  | arr l => cases h
  | str s => cases h
  | num n => cases h
  | bool b => cases h
  | null => cases h

/-- Processing a list of objects adds one raw schema per object. -/
theorem foldlM_process_schema_raw (schemas : List JValue) :
    ∀ r r' : SchemaResult, schemas.foldlM process_schema r = some r' →
      r'.raw_schemas.length = r.raw_schemas.length + schemas.length := by
  induction schemas with
  | nil =>
    intro r r' h
    obtain rfl : r = r' := by injection h
    simp
  | cons s ss ih =>
    intro r r' h
    rw [List.foldlM_cons] at h
    cases hs : process_schema r s with
    | none => rw [hs] at h; cases h
    | some r1 =>
      rw [hs] at h
      have := ih r1 r' h
      have := process_schema_raw r r1 s hs
      simp only [List.length_cons]
      omega

/-- Fold version of the raw-schema count over script blocks. -/
theorem foldlM_process_block_raw (scripts : List (Option JValue)) :
    ∀ r r' : SchemaResult, scripts.foldlM process_block r = some r' →
      r'.raw_schemas.length
        = r.raw_schemas.length
            + (((scripts.filterMap id).map (fun b => (block_objs b).length)).sum) := by
  induction scripts with
  | nil =>
    intro r r' h
    obtain rfl : r = r' := by injection h
    simp
  | cons b bs ih =>
    intro r r' h
    rw [List.foldlM_cons] at h
    cases b with
    | none =>
      have hb : process_block r none = some r := rfl
      rw [hb] at h
      exact ih r r' h
    | some data =>
      cases hs : process_block r (some data) with
      | none => rw [hs] at h; cases h
      | some r1 =>
        rw [hs] at h
        have h1 := ih r1 r' h
        have h2 := foldlM_process_schema_raw (block_objs data) r r1 hs
        have h3 : ((some data :: bs).filterMap id) = data :: bs.filterMap id := rfl
        rw [h3, List.map_cons, List.sum_cons]
        omega

/-- C5 fails as stated: a single script block parsing to a JSON array of
two objects is one successfully parsed JSON-LD block but contributes two
entries to `raw_schemas`. -/
theorem audit_schema_block_count_counterexample :
    (audit_schema
        [some (.arr [.obj [("@type", .str "WebSite")],
          .obj [("@type", .str "FAQPage")]])]).map (fun r => r.raw_schemas.length)
      = some 2 ∧
    ([some (JValue.arr [JValue.obj [("@type", JValue.str "WebSite")],
        JValue.obj [("@type", JValue.str "FAQPage")]])].filterMap id).length = 1 ∧
    (2 : Nat) ≠ 1 :=
  ⟨rfl, rfl, by decide⟩

/-- C5 (amended). `len raw_schemas` equals the number of successfully
parsed JSON-LD objects — one per object of each parsed block, an array
block contributing one per element — never the number of type strings;
a single block whose one object has `"@type": ["WebSite",
"WebApplication"]` yields both type strings in `found_types` but a
`raw_schemas` of length exactly 1. -/
theorem audit_schema_raw_schemas_count :
    (∀ (scripts : List (Option JValue)) (res : SchemaResult),
      audit_schema scripts = some res →
      res.raw_schemas.length
        = ((scripts.filterMap id).map (fun b => (block_objs b).length)).sum) ∧
    audit_schema [some (.obj [("@type", .arr [.str "WebSite", .str "WebApplication"])])]
      = some { found_types := [.str "WebSite", .str "WebApplication"],
               has_website := true, has_webapp := true, has_faq := false,
               raw_schemas := [.obj [("@type",
                 .arr [.str "WebSite", .str "WebApplication"])]] } := by
  constructor
  · intro scripts res h
    have := foldlM_process_block_raw scripts ({} : SchemaResult) res h
    simpa using this
  · rfl

/-- Witness for the amended C5 at the multi-type block input. -/
theorem audit_schema_raw_schemas_count_witness :
    ({ found_types := [JValue.str "WebSite", JValue.str "WebApplication"],
       has_website := true, has_webapp := true, has_faq := false,
       raw_schemas := [JValue.obj [("@type",
         JValue.arr [JValue.str "WebSite", JValue.str "WebApplication"])]] }
        : SchemaResult).raw_schemas.length
      = (([some (JValue.obj [("@type", JValue.arr [JValue.str "WebSite",
            JValue.str "WebApplication"])])].filterMap id).map
          (fun b => (block_objs b).length)).sum :=
  audit_schema_raw_schemas_count.1 _ _ rfl

/-- C10. A parsed JSON-LD object with no `@type` key contributes exactly
one raw schema and the literal string `"unknown"` to `found_types`,
leaving `has_website`, `has_webapp` and `has_faq` unchanged. -/
theorem audit_schema_no_type_unknown :
    (∀ (r : SchemaResult) (fields : List (String × JValue)),
      jget fields "@type" = none →
      process_schema r (.obj fields)
        = some { r with
            found_types := r.found_types ++ [.str "unknown"],
            raw_schemas := r.raw_schemas ++ [.obj fields] }) ∧
    audit_schema [some (.obj [("name", .str "Site")])]
      = some { found_types := [.str "unknown"], has_website := false, has_webapp := false,
               has_faq := false, raw_schemas := [.obj [("name", .str "Site")]] } := by
  constructor
  · intro r fields h
    simp only [process_schema]
    rw [h]
    rfl
  · rfl

/-- Witness for C10 at a concrete object without `@type`. -/
theorem audit_schema_no_type_unknown_witness :
    process_schema ({} : SchemaResult) (.obj [("name", .str "Site")])
      = some { found_types := [JValue.str "unknown"],
               raw_schemas := [JValue.obj [("name", JValue.str "Site")]] } :=
  audit_schema_no_type_unknown.1 {} [("name", .str "Site")] rfl

/-!
Content-quality check, external-link portion (`audit_content_quality`,
audit.py 198-232). Heading, number and word-count fields come from
BeautifulSoup text extraction outside the embedding; the external-link
slice (audit.py 223-231) is embedded over the list of `href` attributes
of the page's `<a href=...>` elements, in document order.
-/

/-- `urlparse(url).netloc` for absolute `scheme://host/...` URLs as
passed by this code base: the text after the first `//` up to the next
`/`, `?` or `#`; empty when the URL has no `//`. -/
def netloc (url : String) : String :=
  match pySplitOnce url "//" with
  | none => ""
  | some p => ⟨p.2.data.takeWhile (fun c => !(c == '/' || c == '?' || c == '#'))⟩

/-- External-link filter of `audit_content_quality` (audit.py 224-227):
keep hrefs that start with `http` and do not contain the page's domain
as a substring of the whole href string (`base_domain not in
link["href"]`). -/
def external_links (hrefs : List String) (url : String) : List String :=
  let base_domain := netloc url
  hrefs.filter (fun href => pyStartsWith href "http" && !(pyIn base_domain href))

/-- External-link slice of `audit_content_quality` (audit.py 223-231):
count the external links and set `has_links` on list truthiness. The
remaining fields keep their defaults here. -/
def audit_content_quality_links (hrefs : List String) (url : String) : ContentResult :=
  let ext := external_links hrefs url
  { ({} : ContentResult) with
    external_links_count := ext.length,
    has_links := !ext.isEmpty }

/-- The filter following the claim's words instead: keep hrefs starting
with `http` whose HOST (the href's `netloc`) does not contain the page's
domain as a substring. -/
def external_links_by_host (hrefs : List String) (url : String) : List String :=
  let base_domain := netloc url
  hrefs.filter (fun href => pyStartsWith href "http" && !(pyIn base_domain (netloc href)))

/-- C6 fails as stated: the code tests the domain substring against the
whole href, not against the href's host. For page
`https://example.com/` and the single link
`https://other.com/?from=example.com`, the href's host `other.com` does
not contain the domain — the claim counts it external (count 1) — but
the code finds `example.com` inside the query string and reports
`external_links_count = 0` with `has_links = false`. -/
theorem audit_content_links_counterexample :
    (audit_content_quality_links ["https://other.com/?from=example.com"]
        "https://example.com/").external_links_count = 0 ∧
    (audit_content_quality_links ["https://other.com/?from=example.com"]
        "https://example.com/").has_links = false ∧
    (external_links_by_host ["https://other.com/?from=example.com"]
        "https://example.com/").length = 1 ∧
    netloc "https://other.com/?from=example.com" = "other.com" ∧
    (0 : Nat) ≠ 1 :=
  ⟨by decide, by decide, by decide, by decide, by decide⟩

/-- C6 (amended). `external_links_count` equals the number of `<a href>`
elements whose href starts with `http` and does not contain the page's
own domain as a substring of the whole href string, and `has_links` is
true iff that count is at least 1. -/
theorem audit_content_links_amended (hrefs : List String) (url : String) :
    (audit_content_quality_links hrefs url).external_links_count
      = (hrefs.filter
          (fun href => pyStartsWith href "http" && !(pyIn (netloc url) href))).length ∧
    ((audit_content_quality_links hrefs url).has_links = true ↔
      1 ≤ (audit_content_quality_links hrefs url).external_links_count) := by
  constructor
  · rfl
  · show (!(external_links hrefs url).isEmpty) = true ↔ 1 ≤ (external_links hrefs url).length
    cases external_links hrefs url <;> simp

/-!
JSON formatter score breakdown (`cli/formatters.py`).
-/

/-- `_robots_score` (formatters.py 192-200). -/
def _robots_score (r : AuditResult) : Nat :=
  if r.robots.citation_bots_ok then SCORING "robots_found" + SCORING "robots_citation_ok"
  else if !r.robots.bots_allowed.isEmpty then
    SCORING "robots_found" + SCORING "robots_some_allowed"
  else if r.robots.found then SCORING "robots_found"
  else 0

/-- `_llms_score` (formatters.py 203-209). -/
def _llms_score (r : AuditResult) : Nat :=
  let s := if r.llms.found then SCORING "llms_found" else 0
  let s := s + (if r.llms.has_h1 then SCORING "llms_h1" else 0)
  let s := s + (if r.llms.has_sections then SCORING "llms_sections" else 0)
  let s := s + (if r.llms.has_links then SCORING "llms_links" else 0)
  s

/-- `_schema_score` (formatters.py 212-217). -/
def _schema_score (r : AuditResult) : Nat :=
  let s := if r.schema.has_website then SCORING "schema_website" else 0
  let s := s + (if r.schema.has_faq then SCORING "schema_faq" else 0)
  let s := s + (if r.schema.has_webapp then SCORING "schema_webapp" else 0)
  s

/-- `_meta_score` (formatters.py 220-226). -/
def _meta_score (r : AuditResult) : Nat :=
  let s := if r.meta.has_title then SCORING "meta_title" else 0
  let s := s + (if r.meta.has_description then SCORING "meta_description" else 0)
  let s := s + (if r.meta.has_canonical then SCORING "meta_canonical" else 0)
  let s := s + (if r.meta.has_og_title && r.meta.has_og_description then
    SCORING "meta_og" else 0)
  s

/-- `_content_score` (formatters.py 229-234). -/
def _content_score (r : AuditResult) : Nat :=
  let s := if r.content.has_h1 then SCORING "content_h1" else 0
  let s := s + (if r.content.has_numbers then SCORING "content_numbers" else 0)
  let s := s + (if r.content.has_links then SCORING "content_links" else 0)
  s

/-- Check name, score and max of each entry of the `checks` object built
by `format_audit_json` (formatters.py 14-60), in emission order. -/
def format_audit_json_checks (r : AuditResult) : List (String × Nat × Nat) :=
  [("robots_txt", (_robots_score r, 20)),
   ("llms_txt", (_llms_score r, 20)),
   ("schema_jsonld", (_schema_score r, 25)),
   ("meta_tags", (_meta_score r, 20)),
   ("content", (_content_score r, 15))]

/-- C7. Under the invariants every audit-produced result satisfies (a
robots result that is not `found` keeps its defaults — `audit_robots_txt`
returns the default `RobotsResult` on any failed fetch — and an llms
result that is not `found` keeps its flags false), the JSON formatter's
per-check scores equal the per-check contributions inside
`compute_geo_score`, the reported maxima are 20/20/25/20/15, and the
five scores sum to the unclamped aggregate. -/
theorem format_audit_json_scores (a : AuditResult)
    (hrob : a.robots.found = false →
      a.robots.citation_bots_ok = false ∧ a.robots.bots_allowed = [])
    (hllms : a.llms.found = false →
      a.llms.has_h1 = false ∧ a.llms.has_sections = false ∧ a.llms.has_links = false) :
    _robots_score a = robots_points a.robots ∧
    _llms_score a = llms_points a.llms ∧
    _schema_score a = schema_points a.schema ∧
    _meta_score a = meta_points a.meta ∧
    _content_score a = content_points a.content ∧
    _robots_score a + _llms_score a + _schema_score a + _meta_score a + _content_score a
      = geo_score_sum a.robots a.llms a.schema a.meta a.content ∧
    (format_audit_json_checks a).map (fun c => (c.1, c.2.2))
      = [("robots_txt", 20), ("llms_txt", 20), ("schema_jsonld", 25), ("meta_tags", 20),
         ("content", 15)] := by
  have hr : _robots_score a = robots_points a.robots := by
    by_cases hc : a.robots.citation_bots_ok = true
    · cases hfound : a.robots.found with
      | false =>
        rcases hrob hfound with ⟨h1, -⟩
        rw [h1] at hc
        cases hc
      | true => simp [_robots_score, robots_points, hc, hfound]
    · by_cases hal : (!a.robots.bots_allowed.isEmpty) = true
      · cases hfound : a.robots.found with
        | false =>
          rcases hrob hfound with ⟨-, h2⟩
          rw [h2] at hal
          simp at hal
        | true => simp [_robots_score, robots_points, hc, hal, hfound]
      · cases hfound : a.robots.found with
        | false => simp [_robots_score, robots_points, hc, hal, hfound]
        | true => simp [_robots_score, robots_points, hc, hal, hfound]
  have hl : _llms_score a = llms_points a.llms := by
    cases hfound : a.llms.found with
    | false =>
      rcases hllms hfound with ⟨h1, h2, h3⟩
      simp [_llms_score, llms_points, hfound, h1, h2, h3]
    | true =>
      simp only [_llms_score, llms_points, hfound, if_true]
      omega
  have hs : _schema_score a = schema_points a.schema := by
    simp only [_schema_score, schema_points]
    omega
  have hm : _meta_score a = meta_points a.meta := by
    simp only [_meta_score, meta_points]
    omega
  have hco : _content_score a = content_points a.content := by
    simp only [_content_score, content_points]
    omega
  refine ⟨hr, hl, hs, hm, hco, ?_, rfl⟩
  rw [hr, hl, hs, hm, hco]
  unfold geo_score_sum
  omega

/-- Witness for C7 at a default audit result. -/
theorem format_audit_json_scores_witness :
    _robots_score { url := "https://example.com" }
        = robots_points ({ url := "https://example.com" } : AuditResult).robots ∧
    (format_audit_json_checks { url := "https://example.com" }).map (fun c => (c.1, c.2.2))
      = [("robots_txt", 20), ("llms_txt", 20), ("schema_jsonld", 25), ("meta_tags", 20),
         ("content", 15)] :=
  ⟨(format_audit_json_scores { url := "https://example.com" }
      (by decide) (by decide)).1,
   (format_audit_json_scores { url := "https://example.com" }
      (by decide) (by decide)).2.2.2.2.2.2⟩

/-!
Robots check (`audit_robots_txt`, audit.py 31-67, and
`_audit_robots_from_response`, audit.py 454-476). The HTTP layer is
outside the embedding: `fetch_url` outcomes are modelled as the pair
`(response?, error?)` the source destructures.
-/

/-- HTTP response surface read by the checks. -/
structure Response where
  status_code : Nat
  text : String
deriving DecidableEq

/-- Shared classification body of the robots check (audit.py 45-67 and
461-476): mark the file found, parse it, classify every bot of the
`AI_BOTS` roster into the three lists, then set `citation_bots_ok` iff
every `CITATION_BOTS` member was allowed. -/
def robots_classify (content : String) : RobotsResult :=
  let result : RobotsResult := { found := true }
  let agent_rules := parse_robots_txt content
  let result := AI_BOTS.foldl
    (fun res p =>
      let bot_status := classify_bot p.1 p.2 agent_rules
      if bot_status.status = "missing" then
        { res with bots_missing := res.bots_missing ++ [p.1] }
      else if bot_status.status = "blocked" then
        { res with bots_blocked := res.bots_blocked ++ [p.1] }
      else
        { res with bots_allowed := res.bots_allowed ++ [p.1] })
    result
  { result with citation_bots_ok := CITATION_BOTS.all (fun b => result.bots_allowed.contains b) }

/-- `audit_robots_txt` (audit.py 31-67) as a function of the `fetch_url`
outcome for `{base}/robots.txt`. Every branch returns a plain
`RobotsResult`; the check has no raising path. -/
def audit_robots_txt (r : Option Response) (err : Option String) : RobotsResult :=
  let result : RobotsResult := {}
  if err.isSome || r.isNone then result
  else
    match r with
    | none => result
    | some resp =>
      if resp.status_code ≠ 200 then result
      else robots_classify resp.text

/-- `_audit_robots_from_response` (audit.py 454-476): the async variant's
robots check on a pre-fetched response. -/
def _audit_robots_from_response (r : Option Response) : RobotsResult :=
  match r with
  | none => ({} : RobotsResult)
  | some resp =>
    if resp.status_code ≠ 200 then ({} : RobotsResult)
    else robots_classify resp.text

/-- C8. Every robots.txt fetch outcome that is not a 200 response — a
transport error, a missing response, or any non-200 status — makes both
robots checks return the all-default result: `found = false`, empty
`bots_allowed`/`bots_blocked`/`bots_missing`, `citation_bots_ok = false`.
Totality of the definitions models "never raises". -/
theorem audit_robots_non200_default :
    (∀ (r : Option Response) (err : Option String), err ≠ none →
      audit_robots_txt r err = {}) ∧
    (∀ err : Option String, audit_robots_txt none err = {}) ∧
    (∀ (resp : Response) (err : Option String), resp.status_code ≠ 200 →
      audit_robots_txt (some resp) err = {}) ∧
    (∀ resp : Response, resp.status_code ≠ 200 →
      _audit_robots_from_response (some resp) = {}) ∧
    _audit_robots_from_response none = {} ∧
    ({} : RobotsResult)
      = { found := false, bots_allowed := [], bots_missing := [], bots_blocked := [],
          citation_bots_ok := false } := by
  refine ⟨?_, ?_, ?_, ?_, rfl, rfl⟩
  · intro r err he
    cases err with
    | none => exact absurd rfl he
    | some e => simp [audit_robots_txt]
  · intro err
    cases err with
    | none => rfl
    | some e => simp [audit_robots_txt]
  · intro resp err hs
    cases err with
    | none => simp [audit_robots_txt, hs]
    | some e => simp [audit_robots_txt]
  · intro resp hs
    simp [_audit_robots_from_response, hs]

/-- Witness for C8 at a 404, a transport error and a 503. -/
theorem audit_robots_non200_default_witness :
    audit_robots_txt (some { status_code := 404, text := "Not Found" }) none = {} ∧
    audit_robots_txt none (some "connection timed out") = {} ∧
    _audit_robots_from_response (some { status_code := 503, text := "" }) = {} :=
  ⟨audit_robots_non200_default.2.2.1 { status_code := 404, text := "Not Found" } none
      (by decide),
   audit_robots_non200_default.1 none (some "connection timed out") (by decide),
   audit_robots_non200_default.2.2.2.1 { status_code := 503, text := "" } (by decide)⟩

/-!
Sitemap fetching (`fetch_sitemap`, llms_generator.py 38-124). The
network and XML layers are outside the embedding: the web is modelled
as a map from URL to the parsed fetch outcome, and `urljoin` as an
opaque URL-resolution function — the claims hold for every choice of
both.
-/

/-- A `<url>` tag of a regular sitemap: its optional `<loc>`, `<lastmod>`
and `<priority>` child texts. -/
structure UrlTag where
  loc : Option String := none
  lastmod : Option String := none
  priority : Option String := none

/-- Parsed outcome of fetching one sitemap URL: a fetch/HTTP failure
(transport error or `raise_for_status`), a sitemap index (its
`<sitemap>` tags, each with an optional `<loc>` text), or a regular
sitemap (its `<url>` tags). -/
inductive SitemapDoc where
  | fetch_error
  | index (locs : List (Option String))
  | plain (entries : List UrlTag)

/-- `SitemapUrl` (results.py 119-124). The float `priority` (parsed with
`float(..)`, default 0.5 on absence or `ValueError`) is kept as the raw
stripped sitemap text: floating point is outside the embedding and
irrelevant to the termination claim. -/
structure SitemapUrl where
  url : String
  lastmod : Option String := none
  priority : Option String := none
  title : Option String := none

/-- `_MAX_SITEMAP_DEPTH` (llms_generator.py 35). -/
def _MAX_SITEMAP_DEPTH : Nat := 3

/-- `fetch_sitemap` (llms_generator.py 38-124): return empty at the
depth limit or on a fetch failure; on a sitemap index recurse, at depth
+ 1, into the (present) `<loc>` targets of the first 10 `<sitemap>`
tags; on a regular sitemap collect one `SitemapUrl` per `<url>` tag
that has a `<loc>`. -/
def fetch_sitemap (web : String → SitemapDoc) (join : String → String → String)
    (sitemap_url : String) (_depth : Nat) : List SitemapUrl :=
  if h : _depth ≥ _MAX_SITEMAP_DEPTH then []
  else
    match web sitemap_url with
    | .fetch_error => []
    | .index locs =>
      ((locs.take 10).filterMap id).flatMap
        (fun loc => fetch_sitemap web join (join sitemap_url (pyStrip loc)) (_depth + 1))
    | .plain entries =>
      entries.filterMap
        (fun tag => tag.loc.map
          (fun l => { url := join sitemap_url (pyStrip l),
                      lastmod := tag.lastmod.map pyStrip,
                      priority := tag.priority.map pyStrip }))
termination_by _MAX_SITEMAP_DEPTH - _depth
decreasing_by
  simp only [_MAX_SITEMAP_DEPTH] at h ⊢
  omega

/-- At or beyond the depth limit the fetch returns nothing. -/
theorem fetch_sitemap_depth_stop (web : String → SitemapDoc)
    (join : String → String → String) (url : String) (d : Nat)
    (h : d ≥ _MAX_SITEMAP_DEPTH) :
    fetch_sitemap web join url d = [] := by
  unfold fetch_sitemap
  rw [dif_pos h]

/-- Below the depth limit, an index is expanded through its first 10
child references only, at depth + 1. -/
theorem fetch_sitemap_index_step (web : String → SitemapDoc)
    (join : String → String → String) (url : String) (d : Nat)
    (locs : List (Option String)) (hd : d < _MAX_SITEMAP_DEPTH)
    (hw : web url = .index locs) :
    fetch_sitemap web join url d
      = ((locs.take 10).filterMap id).flatMap
          (fun loc => fetch_sitemap web join (join url (pyStrip loc)) (d + 1)) := by
  conv_lhs => rw [fetch_sitemap.eq_def]
  rw [dif_neg (by omega), hw]

/-- C9. Sitemap fetching terminates on every input: recursion stops at
depth 3; below the limit an index is expanded through at most its first
10 child references, at depth + 1; a self-referencing index yields the
empty list instead of looping; and the function always returns a finite
(possibly empty) list of `SitemapUrl` entries — it is total for every
web and URL-resolution function. -/
theorem fetch_sitemap_terminates :
    (∀ (web : String → SitemapDoc) (join : String → String → String) (url : String)
      (d : Nat), d ≥ _MAX_SITEMAP_DEPTH → fetch_sitemap web join url d = []) ∧
    (∀ (web : String → SitemapDoc) (join : String → String → String) (url : String)
      (d : Nat) (locs : List (Option String)), d < _MAX_SITEMAP_DEPTH →
      web url = .index locs →
      fetch_sitemap web join url d
        = ((locs.take 10).filterMap id).flatMap
            (fun loc => fetch_sitemap web join (join url (pyStrip loc)) (d + 1))) ∧
    (∀ (join : String → String → String) (url : String),
      fetch_sitemap (fun _ => .index [some url]) join url 0 = []) ∧
    (∀ (web : String → SitemapDoc) (join : String → String → String) (url : String)
      (d : Nat), ∃ l : List SitemapUrl, fetch_sitemap web join url d = l) := by
  refine ⟨fetch_sitemap_depth_stop, fetch_sitemap_index_step, ?_, ?_⟩
  · intro join url
    have h3 : ∀ u : String,
        fetch_sitemap (fun _ => SitemapDoc.index [some url]) join u 3 = [] :=
      fun u => fetch_sitemap_depth_stop _ join u 3 (by decide)
    have h2 : ∀ u : String,
        fetch_sitemap (fun _ => SitemapDoc.index [some url]) join u 2 = [] := by
      intro u
      rw [fetch_sitemap_index_step _ join u 2 [some url] (by decide) rfl]
      simp [h3]
    have h1 : ∀ u : String,
        fetch_sitemap (fun _ => SitemapDoc.index [some url]) join u 1 = [] := by
      intro u
      rw [fetch_sitemap_index_step _ join u 1 [some url] (by decide) rfl]
      simp [h2]
    rw [fetch_sitemap_index_step _ join url 0 [some url] (by decide) rfl]
    simp [h1]
  · intro web join url d
    exact ⟨fetch_sitemap web join url d, rfl⟩

/-- Witness for C9: the depth stop at 3, one index-expansion step at
depth 2 on a self-loop, and the full self-loop run from depth 0. -/
theorem fetch_sitemap_terminates_witness :
    fetch_sitemap (fun _ => SitemapDoc.index [some "https://e.com/s.xml"]) (fun _ l => l)
      "https://e.com/s.xml" 3 = [] ∧
    fetch_sitemap (fun _ => SitemapDoc.index [some "https://e.com/s.xml"]) (fun _ l => l)
      "https://e.com/s.xml" 2
      = (([some "https://e.com/s.xml"].take 10).filterMap id).flatMap
          (fun loc =>
            fetch_sitemap (fun _ => SitemapDoc.index [some "https://e.com/s.xml"])
              (fun _ l => l) ((fun _ l : String => l) "https://e.com/s.xml" (pyStrip loc))
              (2 + 1)) ∧
    fetch_sitemap (fun _ => SitemapDoc.index [some "https://e.com/s.xml"]) (fun _ l => l)
      "https://e.com/s.xml" 0 = [] :=
  ⟨fetch_sitemap_terminates.1 _ _ _ 3 (by decide),
   fetch_sitemap_terminates.2.1 _ _ _ 2 [some "https://e.com/s.xml"] (by decide) rfl,
   fetch_sitemap_terminates.2.2.1 _ _⟩

end Geo
